import Mathlib

/-!
Verification development for the CompareCodingAI repository: five variants of
an in-memory user-management CRUD service (api_copilot_gpt, api_copilot_sonnet,
api_cursor, api_gemini, api_windsurf).  Each Python handler is shallowly
embedded as a pure Lean function; the process-global dictionary `users_db` is
threaded explicitly as an association list (Python dicts preserve insertion
order and have unique keys), `uuid.uuid4()` and `datetime.now()` become
explicit parameters, and a raised `HTTPException(status_code, detail)` becomes
an `Except ApiError` result paired with the store left behind by the handler
(mutations performed before the raise persist, since the handlers mutate the
stored dict in place).
-/

/-- An `HTTPException(status_code=..., detail=...)` raised by a handler. -/
structure ApiError where
  status : Nat
  detail : String
deriving Repr, DecidableEq

/-- Keys of an association-list store, in insertion order (like `dict.keys()`). -/
def storeKeys {α : Type} (db : List (String × α)) : List String :=
  db.map Prod.fst

/-- Dictionary lookup `db[k]` / `k in db`: the value at the first matching key. -/
def lookupKey {α : Type} (db : List (String × α)) (k : String) : Option α :=
  match db with
  | [] => none
  | p :: rest => if p.1 = k then some p.2 else lookupKey rest k

/-- Dictionary assignment `db[k] = v`: replaces the value at an existing key in
place (Python dicts keep the key's position), otherwise appends. -/
def setKey {α : Type} (db : List (String × α)) (k : String) (v : α) : List (String × α) :=
  match db with
  | [] => [(k, v)]
  | p :: rest => if p.1 = k then (k, v) :: rest else p :: setKey rest k v

/-- Dictionary deletion `del db[k]`: removes the entry at the first matching key. -/
def delKey {α : Type} (db : List (String × α)) (k : String) : List (String × α) :=
  match db with
  | [] => []
  | p :: rest => if p.1 = k then rest else p :: delKey rest k

/-! ## api_copilot_gpt

`users` is a plain Python list of `User` models (`id : int`, `name`, `email`);
ids are caller supplied.  Only POST (`add_user`), PUT (`update_user`) and GET
list (`list_users`) exist.  Neither route declares a `status_code`, so FastAPI
serves successful responses with its default status 200. -/

namespace Gpt

/-- The `User` Pydantic model of api_copilot_gpt. -/
structure User where
  id : Int
  name : String
  email : String
deriving Repr, DecidableEq

/-- `add_user`: rejects a duplicate id with 400, otherwise appends the user.
The route has no `status_code` override, so success carries FastAPI's
default status 200. -/
def add_user (users : List User) (user : User) :
    Except ApiError (Nat × User) × List User :=
  if users.any (fun u => u.id = user.id) then
    (Except.error ⟨400, "User with this ID already exists."⟩, users)
  else
    (Except.ok (200, user), users ++ [user])

/-- `update_user`: replaces the first stored user whose id equals `user_id`
with the full `updated_user` payload (including the payload's own id). -/
def update_user (users : List User) (user_id : Int) (updated_user : User) :
    Except ApiError (Nat × User) × List User :=
  match users.findIdx? (fun u => u.id == user_id) with
  | some index => (Except.ok (200, updated_user), users.set index updated_user)
  | none => (Except.error ⟨404, "User not found."⟩, users)

/-- `list_users`: returns the list as stored. -/
def list_users (users : List User) : Nat × List User :=
  (200, users)

end Gpt

/-! ## api_copilot_sonnet

`users_db` is a Python list of dicts; ids are fresh `uuid4()` values, modelled
as an explicit `uid` argument.  `create_user` is declared with
`status_code=201`. -/

namespace Sonnet

/-- `UserCreate` of api_copilot_sonnet (`name`, `email`, optional `age`,
`is_active` defaulting to true). -/
structure UserCreate where
  name : String
  email : String
  age : Option Int
  is_active : Bool
deriving Repr, DecidableEq

/-- A stored user dict `(**user_dict, id)` of api_copilot_sonnet. -/
structure UserRec where
  name : String
  email : String
  age : Option Int
  is_active : Bool
  id : String
deriving Repr, DecidableEq

/-- `create_user`: appends `(**user.dict(), id=uuid4())` to `users_db` and
returns it with status 201 (from the route's `status_code=201`). -/
def create_user (users_db : List UserRec) (user : UserCreate) (uid : String) :
    (Nat × UserRec) × List UserRec :=
  let user_with_id : UserRec := ⟨user.name, user.email, user.age, user.is_active, uid⟩
  ((201, user_with_id), users_db ++ [user_with_id])

end Sonnet

/-! ## api_cursor

`users_db` is a dict from the `uuid4()` string id to `user.dict()` (which
stores name, email, age, is_active and the plaintext password; the id is only
the dict key).  Every returned view is the stored dict with `id` added and
`password` overwritten by `None`. -/

namespace Cursor

/-- `UserCreate` of api_cursor: name, email, optional age, is_active
(default true) and a required password (`min_length=8`). -/
structure UserCreate where
  name : String
  email : String
  age : Option Int
  is_active : Bool
  password : String
deriving Repr, DecidableEq

/-- `UserUpdate` of api_cursor, with pydantic's "unset" tracking: the outer
`Option` records whether the request body contained the field at all —
`none` models a field absent from the request (`dict(exclude_unset=True)`
drops it) — and the inner `Option` is the value the client sent, which may
itself be `null` (`some none`): an explicitly-null field stays in
`update_data` and overwrites the stored value, and the `Optional` pydantic
validators accept `None` (length/range constraints are skipped on `None`). -/
structure UserUpdate where
  name : Option (Option String)
  email : Option (Option String)
  age : Option (Option Int)
  is_active : Option (Option Bool)
  password : Option (Option String)
deriving Repr, DecidableEq

/-- A stored `user.dict()` of api_cursor (no id: the id is the dict key).
The store is a plain dict, so after updates any field may hold `None`
(an update may explicitly null a field); a freshly created record has
every field except `age` non-null. -/
structure StoredUser where
  name : Option String
  email : Option String
  age : Option Int
  is_active : Option Bool
  password : Option String
deriving Repr, DecidableEq

/-- A returned dict `(..., id, password=None)` of api_cursor; the handlers
always scrub `password` to `None` in this view, and pass the other stored
values (nullable, like the stored dict) through. -/
structure UserView where
  name : Option String
  email : Option String
  age : Option Int
  is_active : Option Bool
  password : Option String
  id : String
deriving Repr, DecidableEq

/-- The view `(**user_data, id=uid, password=None)` built by every handler. -/
def viewOf (uid : String) (user_data : StoredUser) : UserView :=
  ⟨user_data.name, user_data.email, user_data.age, user_data.is_active, none, uid⟩

/-- `create_user`: stores `user.dict()` (password included) under a fresh
`uuid4()` id and returns the view with `password=None`, status 201.  The
create payload's required fields are all present, so every stored field
except `age` starts non-null. -/
def create_user (users_db : List (String × StoredUser)) (user : UserCreate) (uid : String) :
    (Nat × UserView) × List (String × StoredUser) :=
  let user_data : StoredUser :=
    ⟨some user.name, some user.email, user.age, some user.is_active, some user.password⟩
  ((201, viewOf uid user_data), setKey users_db uid user_data)

/-- `get_user`: 404 if the id is absent, otherwise the stored dict with
`password=None`. -/
def get_user (users_db : List (String × StoredUser)) (user_id : String) :
    Except ApiError UserView :=
  match lookupKey users_db user_id with
  | none => Except.error ⟨404, "User with ID " ++ user_id ++ " not found"⟩
  | some user_data => Except.ok (viewOf user_id user_data)

/-- `list_users`: every stored dict as a view with `password=None`. -/
def list_users (users_db : List (String × StoredUser)) : List UserView :=
  users_db.map (fun p => viewOf p.1 p.2)

/-- The dict merge `(**stored_user, **update_data)` with
`update_data = user_update.dict(exclude_unset=True)`: every field present in
the request — an explicitly-null one included — overwrites the stored value
with whatever was sent (possibly `None`); absent fields keep the stored
value. -/
def mergeUpdate (stored_user : StoredUser) (user_update : UserUpdate) : StoredUser :=
  ⟨user_update.name.getD stored_user.name,
   user_update.email.getD stored_user.email,
   user_update.age.getD stored_user.age,
   user_update.is_active.getD stored_user.is_active,
   user_update.password.getD stored_user.password⟩

/-- `update_user`: 404 if absent; otherwise merges the provided fields over
the stored dict, stores the result and returns its view with `password=None`. -/
def update_user (users_db : List (String × StoredUser)) (user_id : String)
    (user_update : UserUpdate) :
    Except ApiError UserView × List (String × StoredUser) :=
  match lookupKey users_db user_id with
  | none => (Except.error ⟨404, "User with ID " ++ user_id ++ " not found"⟩, users_db)
  | some stored_user =>
    let updated_user := mergeUpdate stored_user user_update
    (Except.ok (viewOf user_id updated_user), setKey users_db user_id updated_user)

/-- `delete_user`: 404 if absent; otherwise removes the entry (204, no body). -/
def delete_user (users_db : List (String × StoredUser)) (user_id : String) :
    Except ApiError Unit × List (String × StoredUser) :=
  match lookupKey users_db user_id with
  | none => (Except.error ⟨404, "User with ID " ++ user_id ++ " not found"⟩, users_db)
  | some _ => (Except.ok (), delKey users_db user_id)

end Cursor

/-! ## api_gemini

`users_db` is a dict from the `uuid4()` string id to a typed `User` model
(id, first_name, last_name, email); updates build a fresh model via
`model_copy(update=...)`. -/

namespace Gemini

/-- The `User` model of api_gemini. -/
structure User where
  id : String
  first_name : String
  last_name : String
  email : String
deriving Repr, DecidableEq

/-- `UserUpdate` of api_gemini; `none` models a field absent from the request
(`model_dump(exclude_unset=True)` drops it). -/
structure UserUpdate where
  first_name : Option String
  last_name : Option String
  email : Option String
deriving Repr, DecidableEq

/-- `create_user`: stores `User(id=uuid4(), **user_create.model_dump())` and
returns it with status 201. -/
def create_user (users_db : List (String × User))
    (first_name last_name email : String) (uid : String) :
    (Nat × User) × List (String × User) :=
  let new_user : User := ⟨uid, first_name, last_name, email⟩
  ((201, new_user), setKey users_db uid new_user)

/-- `get_user`: 404 if absent, otherwise the stored model. -/
def get_user (users_db : List (String × User)) (user_id : String) :
    Except ApiError User :=
  match lookupKey users_db user_id with
  | none => Except.error ⟨404, "User not found"⟩
  | some existing_user => Except.ok existing_user

/-- `list_users`: all stored models. -/
def list_users (users_db : List (String × User)) : List User :=
  users_db.map Prod.snd

/-- `update_user`: 404 if absent; otherwise
`existing_user.model_copy(update=user_update.model_dump(exclude_unset=True))`
— provided fields replace, absent fields (and the id) are kept. -/
def update_user (users_db : List (String × User)) (user_id : String)
    (user_update : UserUpdate) :
    Except ApiError User × List (String × User) :=
  match lookupKey users_db user_id with
  | none => (Except.error ⟨404, "User not found"⟩, users_db)
  | some existing_user =>
    let updated_user : User :=
      ⟨existing_user.id,
       user_update.first_name.getD existing_user.first_name,
       user_update.last_name.getD existing_user.last_name,
       user_update.email.getD existing_user.email⟩
    (Except.ok updated_user, setKey users_db user_id updated_user)

/-- `delete_user`: 404 if absent; otherwise removes the entry (204, no body). -/
def delete_user (users_db : List (String × User)) (user_id : String) :
    Except ApiError Unit × List (String × User) :=
  match lookupKey users_db user_id with
  | none => (Except.error ⟨404, "User not found"⟩, users_db)
  | some _ => (Except.ok (), delKey users_db user_id)

end Gemini

/-! ## api_windsurf

`users_db` is a dict from the `uuid4()` string id to a plain dict holding
id, name, email, active, created_at and updated_at — the password of the
create payload is never stored (the `new_user` literal omits it), and the
password of an update payload is explicitly ignored (`pass`).  `update_user`
mutates the stored dict in place, field by field, so a write performed before
the email-conflict check persists even when the check raises. -/

namespace Windsurf

/-- A simple JSON-ish value, for serializing stored dicts key by key. -/
inductive JVal where
  | s (v : String)
  | b (v : Bool)
  | n (v : Nat)
deriving Repr, DecidableEq

/-- `UserCreate` of api_windsurf: name, email, active (default true) and a
required password (`min_length=8`). -/
structure UserCreate where
  name : String
  email : String
  active : Bool
  password : String
deriving Repr, DecidableEq

/-- `UserUpdate` of api_windsurf: every field optional (`None` when not
provided). -/
structure UserUpdate where
  name : Option String
  email : Option String
  active : Option Bool
  password : Option String
deriving Repr, DecidableEq

/-- A stored `new_user` dict of api_windsurf: exactly the keys of the dict
literal in `create_user` — there is no password key.  Timestamps are the
`datetime.now()` values, modelled as naturals. -/
structure StoredUser where
  id : String
  name : String
  email : String
  active : Bool
  created_at : Nat
  updated_at : Nat
deriving Repr, DecidableEq

/-- The key/value pairs of a stored api_windsurf user dict, in the order of
the `new_user` literal. -/
def userPairs (u : StoredUser) : List (String × JVal) :=
  [("id", JVal.s u.id), ("name", JVal.s u.name), ("email", JVal.s u.email),
   ("active", JVal.b u.active), ("created_at", JVal.n u.created_at),
   ("updated_at", JVal.n u.updated_at)]

/-- `create_user`: scans all stored users for an equal email and raises
400 "Email already registered" on a hit (before inserting anything);
otherwise stores the `new_user` dict — id, name, email, active and both
timestamps set to `now`; the password is not stored — and returns it with
status 201. -/
def create_user (users_db : List (String × StoredUser)) (user : UserCreate)
    (uid : String) (now : Nat) :
    Except ApiError (Nat × StoredUser) × List (String × StoredUser) :=
  if users_db.any (fun p => p.2.email = user.email) then
    (Except.error ⟨400, "Email already registered"⟩, users_db)
  else
    let new_user : StoredUser := ⟨uid, user.name, user.email, user.active, now, now⟩
    (Except.ok (201, new_user), setKey users_db uid new_user)

/-- `get_user`: 404 if absent, otherwise the stored dict. -/
def get_user (users_db : List (String × StoredUser)) (user_id : String) :
    Except ApiError StoredUser :=
  match lookupKey users_db user_id with
  | none => Except.error ⟨404, "User not found"⟩
  | some user_data => Except.ok user_data

/-- `list_users`: all stored dicts. -/
def list_users (users_db : List (String × StoredUser)) : List StoredUser :=
  users_db.map Prod.snd

/-- The in-place write `user_data["name"] = user_update.name` guarded by
`if user_update.name is not None`. -/
def applyName (user_data : StoredUser) (nm : Option String) : StoredUser :=
  match nm with
  | some n => { user_data with name := n }
  | none => user_data

/-- The in-place write `user_data["active"] = user_update.active` guarded by
`if user_update.active is not None`. -/
def applyActive (user_data : StoredUser) (ac : Option Bool) : StoredUser :=
  match ac with
  | some a => { user_data with active := a }
  | none => user_data

/-- `update_user`: 404 if absent.  Then mutates the stored dict in place:
writes `name` first if provided; then, if `email` is provided, scans the
store (the name write included) for a *different* user with that email and
raises 400 "Email already registered" — with the name write already
persisted — else writes `email`; then writes `active` if provided; a
provided password is ignored (`pass`); finally refreshes `updated_at` to
`now` and returns the dict with status 200.  The successive in-place writes
to the one key collapse into a single `setKey` of the final dict. -/
def update_user (users_db : List (String × StoredUser)) (user_id : String)
    (user_update : UserUpdate) (now : Nat) :
    Except ApiError (Nat × StoredUser) × List (String × StoredUser) :=
  match lookupKey users_db user_id with
  | none => (Except.error ⟨404, "User not found"⟩, users_db)
  | some user_data =>
    let d1 := applyName user_data user_update.name
    let db1 := setKey users_db user_id d1
    match user_update.email with
    | some e =>
      if db1.any (fun p => p.1 ≠ user_id ∧ p.2.email = e) then
        (Except.error ⟨400, "Email already registered"⟩, db1)
      else
        let d4 := { applyActive { d1 with email := e } user_update.active with
                    updated_at := now }
        (Except.ok (200, d4), setKey users_db user_id d4)
    | none =>
      let d4 := { applyActive d1 user_update.active with updated_at := now }
      (Except.ok (200, d4), setKey users_db user_id d4)

/-- `delete_user`: 404 if absent; otherwise removes the entry (204, no body). -/
def delete_user (users_db : List (String × StoredUser)) (user_id : String) :
    Except ApiError Unit × List (String × StoredUser) :=
  match lookupKey users_db user_id with
  | none => (Except.error ⟨404, "User not found"⟩, users_db)
  | some _ => (Except.ok (), delKey users_db user_id)

end Windsurf

/-! ## Store lemmas -/

theorem lookupKey_setKey_self {α : Type} (db : List (String × α)) (k : String) (v : α) :
    lookupKey (setKey db k v) k = some v := by
  induction db with
  | nil => simp [setKey, lookupKey]
  | cons p rest ih =>
    by_cases h : p.1 = k
    · simp [setKey, lookupKey, h]
    · simp [setKey, lookupKey, h, ih]

theorem lookupKey_setKey_ne {α : Type} (db : List (String × α)) (k k' : String) (v : α)
    (h : k' ≠ k) : lookupKey (setKey db k v) k' = lookupKey db k' := by
  have hkk : ¬(k = k') := fun e => h e.symm
  induction db with
  | nil => simp [setKey, lookupKey, hkk]
  | cons p rest ih =>
    by_cases hp : p.1 = k
    · rw [setKey, if_pos hp, lookupKey, lookupKey, if_neg hkk, if_neg]
      intro e
      exact hkk (hp ▸ e)
    · rw [setKey, if_neg hp]
      by_cases hp2 : p.1 = k'
      · rw [lookupKey, if_pos hp2, lookupKey, if_pos hp2]
      · rw [lookupKey, if_neg hp2, lookupKey, if_neg hp2, ih]

theorem storeKeys_setKey_mem {α : Type} (db : List (String × α)) (k : String) (v : α)
    (h : k ∈ storeKeys db) : storeKeys (setKey db k v) = storeKeys db := by
  induction db with
  | nil => simp [storeKeys] at h
  | cons p rest ih =>
    by_cases hp : p.1 = k
    · rw [setKey, if_pos hp]
      simp [storeKeys, hp]
    · have hmem : k ∈ storeKeys rest := by
        rcases List.mem_cons.mp h with h1 | h1
        · exact absurd h1.symm hp
        · exact h1
      rw [setKey, if_neg hp]
      show p.1 :: storeKeys (setKey rest k v) = p.1 :: storeKeys rest
      rw [ih hmem]

theorem lookupKey_mem_keys {α : Type} (db : List (String × α)) (k : String) (v : α)
    (h : lookupKey db k = some v) : k ∈ storeKeys db := by
  induction db with
  | nil => simp [lookupKey] at h
  | cons p rest ih =>
    by_cases hp : p.1 = k
    · exact List.mem_cons.mpr (Or.inl hp.symm)
    · rw [lookupKey, if_neg hp] at h
      exact List.mem_cons.mpr (Or.inr (ih h))

theorem lookupKey_eq_none_of_not_mem {α : Type} (db : List (String × α)) (k : String)
    (h : k ∉ storeKeys db) : lookupKey db k = none := by
  induction db with
  | nil => rfl
  | cons p rest ih =>
    have h1 : ¬(p.1 = k) := fun e => h (List.mem_cons.mpr (Or.inl e.symm))
    have h2 : k ∉ storeKeys rest := fun e => h (List.mem_cons.mpr (Or.inr e))
    rw [lookupKey, if_neg h1, ih h2]

theorem lookupKey_delKey_self {α : Type} (db : List (String × α)) (k : String)
    (hnd : (storeKeys db).Nodup) : lookupKey (delKey db k) k = none := by
  induction db with
  | nil => rfl
  | cons p rest ih =>
    have hnd2 : p.1 ∉ storeKeys rest ∧ (storeKeys rest).Nodup := by
      simpa [storeKeys] using hnd
    by_cases hp : p.1 = k
    · rw [delKey, if_pos hp]
      exact lookupKey_eq_none_of_not_mem rest k (hp ▸ hnd2.1)
    · rw [delKey, if_neg hp, lookupKey, if_neg hp]
      exact ih hnd2.2

theorem lookupKey_delKey_ne {α : Type} (db : List (String × α)) (k k' : String)
    (h : k' ≠ k) : lookupKey (delKey db k) k' = lookupKey db k' := by
  induction db with
  | nil => rfl
  | cons p rest ih =>
    by_cases hp : p.1 = k
    · rw [delKey, if_pos hp, lookupKey, if_neg]
      intro e
      exact h (e ▸ hp.symm ▸ rfl)
    · by_cases hp2 : p.1 = k'
      · rw [delKey, if_neg hp, lookupKey, if_pos hp2, lookupKey, if_pos hp2]
      · rw [delKey, if_neg hp, lookupKey, if_neg hp2, lookupKey, if_neg hp2, ih]

theorem any_setKey_of_key_false {α : Type} (db : List (String × α)) (k : String) (v : α)
    (p : String × α → Bool) (hp : ∀ w, p (k, w) = false) :
    (setKey db k v).any p = db.any p := by
  induction db with
  | nil => simp [setKey, hp]
  | cons q rest ih =>
    by_cases hq : q.1 = k
    · have hqf : p q = false := by
        have : q = (k, q.2) := by
          cases q with
          | mk a b => simp_all
        rw [this, hp]
      rw [setKey, if_pos hq]
      simp [List.any_cons, hp, hqf]
    · rw [setKey, if_neg hq]
      simp [List.any_cons, ih]

/-! ## Claims -/

/-- Claim C6: in api_cursor, for every store, every create input and every
fresh id, `get_user` called immediately after `create_user` (no intervening
operation) succeeds and returns a view equal to the one `create_user`
returned. -/
theorem claimC6_get_after_create (users_db : List (String × Cursor.StoredUser))
    (user : Cursor.UserCreate) (uid : String) :
    Cursor.get_user (Cursor.create_user users_db user uid).2 uid
      = Except.ok (Cursor.create_user users_db user uid).1.2 := by
  simp [Cursor.create_user, Cursor.get_user, lookupKey_setKey_self]

/-- Claim C9: in api_gemini and api_cursor, deleting a present id succeeds
and removes the record, and a second delete of the same id fails with the
404 not-found error and returns the store unchanged. -/
theorem claimC9_delete_twice
    (gdb : List (String × Gemini.User)) (cdb : List (String × Cursor.StoredUser))
    (uid : String) (gr : Gemini.User) (cr : Cursor.StoredUser)
    (hg : lookupKey gdb uid = some gr) (hgn : (storeKeys gdb).Nodup)
    (hc : lookupKey cdb uid = some cr) (hcn : (storeKeys cdb).Nodup) :
    Gemini.delete_user gdb uid = (Except.ok (), delKey gdb uid) ∧
    lookupKey (delKey gdb uid) uid = none ∧
    Gemini.delete_user (delKey gdb uid) uid
      = (Except.error ⟨404, "User not found"⟩, delKey gdb uid) ∧
    Cursor.delete_user cdb uid = (Except.ok (), delKey cdb uid) ∧
    lookupKey (delKey cdb uid) uid = none ∧
    Cursor.delete_user (delKey cdb uid) uid
      = (Except.error ⟨404, "User with ID " ++ uid ++ " not found"⟩, delKey cdb uid) := by
  have g2 := lookupKey_delKey_self gdb uid hgn
  have c2 := lookupKey_delKey_self cdb uid hcn
  refine ⟨?_, g2, ?_, ?_, c2, ?_⟩
  · simp [Gemini.delete_user, hg]
  · simp [Gemini.delete_user, g2]
  · simp [Cursor.delete_user, hc]
  · simp [Cursor.delete_user, c2]

/-- Witness for C9 at a concrete one-record store in each variant. -/
theorem claimC9_witness :
    lookupKey [("a", (⟨"a", "Jane", "Doe", "jane@example.com"⟩ : Gemini.User))] "a"
      = some ⟨"a", "Jane", "Doe", "jane@example.com"⟩ ∧
    lookupKey [("a", (⟨some "Jo", some "jo@example.com", none, some true, some "password123"⟩
        : Cursor.StoredUser))] "a"
      = some ⟨some "Jo", some "jo@example.com", none, some true, some "password123"⟩ ∧
    Gemini.delete_user [("a", (⟨"a", "Jane", "Doe", "jane@example.com"⟩ : Gemini.User))] "a"
      = (Except.ok (), []) ∧
    Gemini.delete_user [] "a" = (Except.error ⟨404, "User not found"⟩, []) :=
  have h := claimC9_delete_twice
    [("a", (⟨"a", "Jane", "Doe", "jane@example.com"⟩ : Gemini.User))]
    [("a", (⟨some "Jo", some "jo@example.com", none, some true, some "password123"⟩
      : Cursor.StoredUser))]
    "a" ⟨"a", "Jane", "Doe", "jane@example.com"⟩
    ⟨some "Jo", some "jo@example.com", none, some true, some "password123"⟩
    (by decide) (by decide) (by decide) (by decide)
  ⟨by decide, by decide, h.1, h.2.2.1⟩

/-- Claim C7: in the password-accepting variants, no returned view carries a
password.  In api_cursor every handler returns the stored dict with
`password` overwritten by `None` (scrubbed); in api_windsurf the stored dict
— which is what every handler returns — has no `password` key at all. -/
theorem claimC7_password_never_returned :
    (∀ (db : List (String × Cursor.StoredUser)) (u : Cursor.UserCreate) (uid : String),
      ((Cursor.create_user db u uid).1.2).password = none) ∧
    (∀ (db : List (String × Cursor.StoredUser)) (uid : String) (v : Cursor.UserView),
      Cursor.get_user db uid = Except.ok v → v.password = none) ∧
    (∀ (db : List (String × Cursor.StoredUser)) (v : Cursor.UserView),
      v ∈ Cursor.list_users db → v.password = none) ∧
    (∀ (db : List (String × Cursor.StoredUser)) (uid : String) (uu : Cursor.UserUpdate)
       (v : Cursor.UserView),
      (Cursor.update_user db uid uu).1 = Except.ok v → v.password = none) ∧
    (∀ (w : Windsurf.StoredUser), "password" ∉ (Windsurf.userPairs w).map Prod.fst) ∧
    (∀ (db : List (String × Windsurf.StoredUser)) (u : Windsurf.UserCreate)
       (uid : String) (now st : Nat) (r : Windsurf.StoredUser),
      (Windsurf.create_user db u uid now).1 = Except.ok (st, r) →
        "password" ∉ (Windsurf.userPairs r).map Prod.fst) ∧
    (∀ (db : List (String × Windsurf.StoredUser)) (uid : String)
       (uu : Windsurf.UserUpdate) (now st : Nat) (r : Windsurf.StoredUser),
      (Windsurf.update_user db uid uu now).1 = Except.ok (st, r) →
        "password" ∉ (Windsurf.userPairs r).map Prod.fst) := by
  have hw : ∀ (w : Windsurf.StoredUser), "password" ∉ (Windsurf.userPairs w).map Prod.fst := by
    intro w
    simp [Windsurf.userPairs]
  refine ⟨?_, ?_, ?_, ?_, hw, ?_, ?_⟩
  · intro db u uid
    simp [Cursor.create_user, Cursor.viewOf]
  · intro db uid v h
    cases hl : lookupKey db uid with
    | none => simp [Cursor.get_user, hl] at h
    | some d =>
      simp [Cursor.get_user, hl] at h
      simp [← h, Cursor.viewOf]
  · intro db v h
    rcases List.mem_map.mp h with ⟨p, _, hp⟩
    simp [← hp, Cursor.viewOf]
  · intro db uid uu v h
    cases hl : lookupKey db uid with
    | none => simp [Cursor.update_user, hl] at h
    | some d =>
      simp [Cursor.update_user, hl] at h
      simp [← h, Cursor.viewOf]
  · intro db u uid now st r _
    exact hw r
  · intro db uid uu now st r _
    exact hw r

/-- Witness for C7: a concrete get on a one-record api_cursor store. -/
theorem claimC7_witness :
    Cursor.get_user
        [("a", (⟨some "Jo", some "jo@example.com", none, some true, some "password123"⟩
          : Cursor.StoredUser))] "a"
      = Except.ok ⟨some "Jo", some "jo@example.com", none, some true, none, "a"⟩ ∧
    (⟨some "Jo", some "jo@example.com", none, some true, none, "a"⟩
      : Cursor.UserView).password = none :=
  ⟨rfl,
   claimC7_password_never_returned.2.1
     [("a", (⟨some "Jo", some "jo@example.com", none, some true, some "password123"⟩
       : Cursor.StoredUser))] "a"
     ⟨some "Jo", some "jo@example.com", none, some true, none, "a"⟩ rfl⟩

/-- Counterexample to C10: in api_cursor, `PUT` with body `{"password": null}`
is accepted (the `Optional` validators skip `None`), `dict(exclude_unset=True)`
keeps the explicitly-set null field, and the merge `(**stored, **update_data)`
overwrites the stored plaintext password with `None` — the plaintext
"password123" supplied at creation is removed from the stored record, and the
call still succeeds (the response view never shows a password anyway). -/
theorem claimC10_counterexample :
    Cursor.update_user
        [("a", ⟨some "Jo", some "jo@example.com", none, some true, some "password123"⟩)] "a"
        ⟨none, none, none, none, some none⟩
      = (Except.ok ⟨some "Jo", some "jo@example.com", none, some true, none, "a"⟩,
         [("a", ⟨some "Jo", some "jo@example.com", none, some true, none⟩)]) ∧
    (⟨some "Jo", some "jo@example.com", none, some true, none⟩
      : Cursor.StoredUser).password = none ∧
    (some "password123" : Option String) ≠ none :=
  ⟨rfl, rfl, by decide⟩

/-- Claim C10 (amended): in api_cursor the stored record keeps, in plaintext,
the password supplied by the most recent `create_user` or `update_user` that
provided a non-null one — create stores the create payload's password
verbatim, an update sending a password value overwrites it, an update whose
body omits the field retains it, and create/update/delete leave every other
record's stored dict untouched — but an update explicitly sending
`password: null` removes the stored plaintext (overwrites it with `None`);
the views returned by the handlers always scrub the password to `None`. -/
theorem claimC10_password_retention_amended :
    (∀ (db : List (String × Cursor.StoredUser)) (u : Cursor.UserCreate) (uid : String),
      lookupKey ((Cursor.create_user db u uid).2) uid
        = some ⟨some u.name, some u.email, u.age, some u.is_active, some u.password⟩) ∧
    (∀ (db : List (String × Cursor.StoredUser)) (uid : String) (uu : Cursor.UserUpdate)
       (st : Cursor.StoredUser) (p : String),
      lookupKey db uid = some st → uu.password = some (some p) →
        lookupKey ((Cursor.update_user db uid uu).2) uid = some (Cursor.mergeUpdate st uu) ∧
        (Cursor.mergeUpdate st uu).password = some p) ∧
    (∀ (db : List (String × Cursor.StoredUser)) (uid : String) (uu : Cursor.UserUpdate)
       (st : Cursor.StoredUser),
      lookupKey db uid = some st → uu.password = none →
        lookupKey ((Cursor.update_user db uid uu).2) uid = some (Cursor.mergeUpdate st uu) ∧
        (Cursor.mergeUpdate st uu).password = st.password) ∧
    (∀ (db : List (String × Cursor.StoredUser)) (uid : String) (uu : Cursor.UserUpdate)
       (st : Cursor.StoredUser),
      lookupKey db uid = some st → uu.password = some none →
        lookupKey ((Cursor.update_user db uid uu).2) uid = some (Cursor.mergeUpdate st uu) ∧
        (Cursor.mergeUpdate st uu).password = none) ∧
    (∀ (db : List (String × Cursor.StoredUser)) (uid k : String) (uu : Cursor.UserUpdate),
      k ≠ uid → lookupKey ((Cursor.update_user db uid uu).2) k = lookupKey db k) ∧
    (∀ (db : List (String × Cursor.StoredUser)) (u : Cursor.UserCreate) (uid k : String),
      k ≠ uid → lookupKey ((Cursor.create_user db u uid).2) k = lookupKey db k) ∧
    (∀ (db : List (String × Cursor.StoredUser)) (uid k : String),
      k ≠ uid → lookupKey ((Cursor.delete_user db uid).2) k = lookupKey db k) ∧
    (∀ (db : List (String × Cursor.StoredUser)) (u : Cursor.UserCreate) (uid : String),
      ((Cursor.create_user db u uid).1.2).password = none) ∧
    (∀ (db : List (String × Cursor.StoredUser)) (uid : String) (uu : Cursor.UserUpdate)
       (v : Cursor.UserView),
      (Cursor.update_user db uid uu).1 = Except.ok v → v.password = none) := by
  refine ⟨?_, ?_, ?_, ?_, ?_, ?_, ?_, ?_, ?_⟩
  · intro db u uid
    simp [Cursor.create_user, lookupKey_setKey_self]
  · intro db uid uu st p hst hp
    refine ⟨?_, ?_⟩
    · simp [Cursor.update_user, hst, lookupKey_setKey_self]
    · simp [Cursor.mergeUpdate, hp]
  · intro db uid uu st hst hp
    refine ⟨?_, ?_⟩
    · simp [Cursor.update_user, hst, lookupKey_setKey_self]
    · simp [Cursor.mergeUpdate, hp]
  · intro db uid uu st hst hp
    refine ⟨?_, ?_⟩
    · simp [Cursor.update_user, hst, lookupKey_setKey_self]
    · simp [Cursor.mergeUpdate, hp]
  · intro db uid k uu hk
    cases hst : lookupKey db uid with
    | none => simp [Cursor.update_user, hst]
    | some st => simp [Cursor.update_user, hst, lookupKey_setKey_ne _ _ _ _ hk]
  · intro db u uid k hk
    simp [Cursor.create_user, lookupKey_setKey_ne _ _ _ _ hk]
  · intro db uid k hk
    cases hst : lookupKey db uid with
    | none => simp [Cursor.delete_user, hst]
    | some st => simp [Cursor.delete_user, hst, lookupKey_delKey_ne _ _ _ hk]
  · intro db u uid
    simp [Cursor.create_user, Cursor.viewOf]
  · intro db uid uu v h
    cases hl : lookupKey db uid with
    | none => simp [Cursor.update_user, hl] at h
    | some d =>
      simp [Cursor.update_user, hl] at h
      simp [← h, Cursor.viewOf]

/-- Witness for C10 (amended): a concrete create, then an update sending a
new password value, on a one-record api_cursor store. -/
theorem claimC10_witness :
    lookupKey ((Cursor.create_user []
        ⟨"Jo", "jo@example.com", none, true, "password123"⟩ "a").2) "a"
      = some ⟨some "Jo", some "jo@example.com", none, some true, some "password123"⟩ ∧
    lookupKey
        [("a", (⟨some "Jo", some "jo@example.com", none, some true, some "password123"⟩
          : Cursor.StoredUser))] "a"
      = some ⟨some "Jo", some "jo@example.com", none, some true, some "password123"⟩ ∧
    lookupKey ((Cursor.update_user
        [("a", (⟨some "Jo", some "jo@example.com", none, some true, some "password123"⟩
          : Cursor.StoredUser))] "a"
        ⟨none, none, none, none, some (some "newpassword9")⟩).2) "a"
      = some (Cursor.mergeUpdate
          ⟨some "Jo", some "jo@example.com", none, some true, some "password123"⟩
          ⟨none, none, none, none, some (some "newpassword9")⟩) ∧
    (Cursor.mergeUpdate
        ⟨some "Jo", some "jo@example.com", none, some true, some "password123"⟩
        ⟨none, none, none, none, some (some "newpassword9")⟩).password
      = some "newpassword9" :=
  have h2 := claimC10_password_retention_amended.2.1
    [("a", (⟨some "Jo", some "jo@example.com", none, some true, some "password123"⟩
      : Cursor.StoredUser))] "a"
    ⟨none, none, none, none, some (some "newpassword9")⟩
    ⟨some "Jo", some "jo@example.com", none, some true, some "password123"⟩
    "newpassword9" (by decide) rfl
  ⟨claimC10_password_retention_amended.1 []
     ⟨"Jo", "jo@example.com", none, true, "password123"⟩ "a",
   by decide, h2.1, h2.2⟩

/-- Counterexample to C8: in api_copilot_gpt the POST route declares no
`status_code`, so a successful create returns the FastAPI default 200, not
201. -/
theorem claimC8_counterexample :
    Gpt.add_user [] ⟨1, "John Doe", "john@example.com"⟩
      = (Except.ok (200, ⟨1, "John Doe", "john@example.com"⟩),
         [⟨1, "John Doe", "john@example.com"⟩]) ∧
    (200 : Nat) ≠ 201 :=
  ⟨rfl, by decide⟩

/-- Claim C8 (amended): a successful create returns status 201 with the
created record in api_copilot_sonnet, api_cursor, api_gemini and
api_windsurf; in api_copilot_gpt a successful `add_user` returns the record
with the default status 200. -/
theorem claimC8_create_status_amended :
    (∀ (db : List Sonnet.UserRec) (u : Sonnet.UserCreate) (uid : String),
      (Sonnet.create_user db u uid).1.1 = 201) ∧
    (∀ (db : List (String × Cursor.StoredUser)) (u : Cursor.UserCreate) (uid : String),
      (Cursor.create_user db u uid).1.1 = 201) ∧
    (∀ (db : List (String × Gemini.User)) (fn ln em uid : String),
      (Gemini.create_user db fn ln em uid).1.1 = 201) ∧
    (∀ (db : List (String × Windsurf.StoredUser)) (u : Windsurf.UserCreate)
       (uid : String) (now : Nat),
      db.any (fun p => p.2.email = u.email) = false →
        (Windsurf.create_user db u uid now).1
          = Except.ok (201, ⟨uid, u.name, u.email, u.active, now, now⟩)) ∧
    (∀ (users : List Gpt.User) (u : Gpt.User),
      users.any (fun x => x.id = u.id) = false →
        (Gpt.add_user users u).1 = Except.ok (200, u)) := by
  refine ⟨fun db u uid => rfl, fun db u uid => rfl, fun db fn ln em uid => rfl, ?_, ?_⟩
  · intro db u uid now h
    simp [Windsurf.create_user, h]
  · intro users u h
    simp [Gpt.add_user, h]

/-- Witness for C8 (amended): concrete creates on empty stores. -/
theorem claimC8_witness :
    (([] : List (String × Windsurf.StoredUser)).any
        (fun p => p.2.email = "jo@example.com") = false) ∧
    (Windsurf.create_user [] ⟨"Jo", "jo@example.com", true, "password123"⟩ "a" 3).1
      = Except.ok (201, ⟨"a", "Jo", "jo@example.com", true, 3, 3⟩) ∧
    (([] : List Gpt.User).any (fun x => x.id = (1 : Int)) = false) ∧
    (Gpt.add_user [] ⟨1, "Jo", "jo@example.com"⟩).1
      = Except.ok (200, ⟨1, "Jo", "jo@example.com"⟩) :=
  ⟨by decide,
   claimC8_create_status_amended.2.2.2.1 [] ⟨"Jo", "jo@example.com", true, "password123"⟩ "a" 3 rfl,
   by decide,
   claimC8_create_status_amended.2.2.2.2 [] ⟨1, "Jo", "jo@example.com"⟩ rfl⟩

/-- Counterexample to C5: in api_windsurf, creating a second record with an
already-registered email does fail before insertion and leaves the store
unchanged, but the error is raised with status 400 (`HTTP_400_BAD_REQUEST`,
"Email already registered"), not the 409 the claim requires. -/
theorem claimC5_counterexample :
    Windsurf.create_user [("a", ⟨"a", "Alice", "alice@example.com", true, 0, 0⟩)]
        ⟨"Bob", "alice@example.com", true, "password123"⟩ "b" 7
      = (Except.error ⟨400, "Email already registered"⟩,
         [("a", ⟨"a", "Alice", "alice@example.com", true, 0, 0⟩)]) ∧
    (400 : Nat) ≠ 409 :=
  ⟨rfl, by decide⟩

/-- Claim C5 (amended): in api_windsurf, creating a record whose email equals
the email of any stored record fails with the email-conflict error — carrying
status 400, not 409 — and returns the store unchanged, so the second record
is never inserted. -/
theorem claimC5_create_conflict_amended
    (db : List (String × Windsurf.StoredUser)) (u : Windsurf.UserCreate)
    (uid : String) (now : Nat)
    (hconf : db.any (fun p => p.2.email = u.email) = true) :
    Windsurf.create_user db u uid now
      = (Except.error ⟨400, "Email already registered"⟩, db) := by
  simp [Windsurf.create_user, hconf]

/-- Witness for C5 (amended) at a concrete one-record store. -/
theorem claimC5_witness :
    ([("a", (⟨"a", "Alice", "alice@example.com", true, 0, 0⟩ : Windsurf.StoredUser))].any
        (fun p => p.2.email = "alice@example.com") = true) ∧
    Windsurf.create_user [("a", ⟨"a", "Alice", "alice@example.com", true, 0, 0⟩)]
        ⟨"Bob", "alice@example.com", true, "password123"⟩ "b" 7
      = (Except.error ⟨400, "Email already registered"⟩,
         [("a", ⟨"a", "Alice", "alice@example.com", true, 0, 0⟩)]) :=
  ⟨by decide,
   claimC5_create_conflict_amended
     [("a", ⟨"a", "Alice", "alice@example.com", true, 0, 0⟩)]
     ⟨"Bob", "alice@example.com", true, "password123"⟩ "b" 7 (by decide)⟩

/-- Counterexample to C2: starting from the empty api_copilot_gpt store,
`add_user` creates ids 1 and 2, and then `update_user 1` with a payload whose
own id is 2 succeeds — the record that had id 1 now has id 2, so an
operation changed a record's id and two live records share an id. -/
theorem claimC2_counterexample :
    Gpt.add_user [] ⟨1, "Alice", "alice@example.com"⟩
      = (Except.ok (200, ⟨1, "Alice", "alice@example.com"⟩),
         [⟨1, "Alice", "alice@example.com"⟩]) ∧
    Gpt.add_user [⟨1, "Alice", "alice@example.com"⟩] ⟨2, "Bob", "bob@example.com"⟩
      = (Except.ok (200, ⟨2, "Bob", "bob@example.com"⟩),
         [⟨1, "Alice", "alice@example.com"⟩, ⟨2, "Bob", "bob@example.com"⟩]) ∧
    Gpt.update_user [⟨1, "Alice", "alice@example.com"⟩, ⟨2, "Bob", "bob@example.com"⟩] 1
        ⟨2, "Mallory", "mallory@example.com"⟩
      = (Except.ok (200, ⟨2, "Mallory", "mallory@example.com"⟩),
         [⟨2, "Mallory", "mallory@example.com"⟩, ⟨2, "Bob", "bob@example.com"⟩]) ∧
    ([(⟨2, "Mallory", "mallory@example.com"⟩ : Gpt.User),
      ⟨2, "Bob", "bob@example.com"⟩].map Gpt.User.id) = [2, 2] ∧
    ¬ ([(2 : Int), 2].Nodup) :=
  ⟨rfl, rfl, rfl, rfl, by decide⟩

/-- Claim C2 (amended): id-uniqueness of live records is preserved by
creation — api_copilot_gpt's `add_user` rejects a duplicate caller-supplied
id — and in the dict-keyed variants an update never adds or removes an id
(api_cursor and api_windsurf updates keep the key list unchanged, and an
api_gemini update returns a record keeping the stored id); but
api_copilot_gpt's `update_user` installs the payload's id wholesale, so
there an update can change a record's id and duplicate ids (see the
counterexample). -/
theorem claimC2_id_invariant_amended :
    (∀ (users : List Gpt.User) (u : Gpt.User),
      (users.map Gpt.User.id).Nodup → (((Gpt.add_user users u).2).map Gpt.User.id).Nodup) ∧
    (∀ (db : List (String × Cursor.StoredUser)) (uid : String) (uu : Cursor.UserUpdate),
      storeKeys ((Cursor.update_user db uid uu).2) = storeKeys db) ∧
    (∀ (db : List (String × Windsurf.StoredUser)) (uid : String)
       (uu : Windsurf.UserUpdate) (now : Nat),
      storeKeys ((Windsurf.update_user db uid uu now).2) = storeKeys db) ∧
    (∀ (db : List (String × Gemini.User)) (uid : String) (uu : Gemini.UserUpdate)
       (r : Gemini.User),
      lookupKey db uid = some r →
        (Gemini.update_user db uid uu).1
          = Except.ok ⟨r.id, uu.first_name.getD r.first_name, uu.last_name.getD r.last_name,
                       uu.email.getD r.email⟩) := by
  refine ⟨?_, ?_, ?_, ?_⟩
  · intro users u h
    by_cases hc : users.any (fun x => x.id = u.id) = true
    · simp [Gpt.add_user, hc, h]
    · have hns : u.id ∉ users.map Gpt.User.id := by
        simp only [List.any_eq_true, decide_eq_true_eq, not_exists] at hc
        push_neg at hc
        simp only [List.mem_map, not_exists]
        intro x
        rintro ⟨hx, hid⟩
        exact hc x hx hid
      simp only [Gpt.add_user, hc, if_false, Bool.not_eq_true] at *
      rw [if_neg (by simp [hc])]
      simp only [List.map_append, List.map_cons, List.map_nil]
      exact List.Nodup.append h (List.nodup_singleton u.id)
        (by simpa [List.disjoint_singleton] using hns)
  · intro db uid uu
    cases hst : lookupKey db uid with
    | none => simp [Cursor.update_user, hst]
    | some st =>
      simp [Cursor.update_user, hst,
        storeKeys_setKey_mem _ _ _ (lookupKey_mem_keys db uid st hst)]
  · intro db uid uu now
    cases hst : lookupKey db uid with
    | none => simp [Windsurf.update_user, hst]
    | some st =>
      have hm := lookupKey_mem_keys db uid st hst
      cases he : uu.email with
      | none => simp [Windsurf.update_user, hst, he, storeKeys_setKey_mem _ _ _ hm]
      | some e =>
        simp only [Windsurf.update_user, hst, he]
        split
        · simp [storeKeys_setKey_mem _ _ _ hm]
        · simp [storeKeys_setKey_mem _ _ _ hm]
  · intro db uid uu r hr
    simp [Gemini.update_user, hr]

/-- Witness for C2 (amended) at concrete stores. -/
theorem claimC2_witness :
    (([(⟨1, "Alice", "alice@example.com"⟩ : Gpt.User)].map Gpt.User.id).Nodup) ∧
    (((Gpt.add_user [⟨1, "Alice", "alice@example.com"⟩] ⟨2, "Bob", "bob@example.com"⟩).2).map
        Gpt.User.id).Nodup ∧
    lookupKey [("a", (⟨"a", "Jane", "Doe", "jane@example.com"⟩ : Gemini.User))] "a"
      = some ⟨"a", "Jane", "Doe", "jane@example.com"⟩ ∧
    (Gemini.update_user [("a", ⟨"a", "Jane", "Doe", "jane@example.com"⟩)] "a"
        ⟨none, none, some "new@example.com"⟩).1
      = Except.ok ⟨"a", "Jane", "Doe", "new@example.com"⟩ :=
  ⟨by decide,
   claimC2_id_invariant_amended.1 [⟨1, "Alice", "alice@example.com"⟩]
     ⟨2, "Bob", "bob@example.com"⟩ (by decide),
   by decide,
   claimC2_id_invariant_amended.2.2.2 [("a", ⟨"a", "Jane", "Doe", "jane@example.com"⟩)] "a"
     ⟨none, none, some "new@example.com"⟩ ⟨"a", "Jane", "Doe", "jane@example.com"⟩ (by decide)⟩

/-- Counterexample to C4: in api_windsurf, an update supplying only an email
(no conflict) also refreshes the stored record's `updated_at`, so not every
other field keeps its pre-update value: starting from timestamps 0, an
email-only update at time 1 leaves `updated_at = 1 ≠ 0`. -/
theorem claimC4_counterexample :
    Windsurf.update_user [("a", ⟨"a", "Alice", "alice@example.com", true, 0, 0⟩)] "a"
        ⟨none, some "new@example.com", none, none⟩ 1
      = (Except.ok (200, ⟨"a", "Alice", "new@example.com", true, 0, 1⟩),
         [("a", ⟨"a", "Alice", "new@example.com", true, 0, 1⟩)]) ∧
    (⟨"a", "Alice", "new@example.com", true, 0, 1⟩ : Windsurf.StoredUser).updated_at
      ≠ (⟨"a", "Alice", "alice@example.com", true, 0, 0⟩ : Windsurf.StoredUser).updated_at :=
  ⟨rfl, by decide⟩

/-- Claim C4 (amended): an email-only update on an existing record changes
only the email field — plus, in api_windsurf (which tracks timestamps), the
refreshed `updated_at` — keeping every other field of the record and every
other record in the store unchanged; in api_gemini exactly the email
changes. -/
theorem claimC4_email_only_update_amended :
    (∀ (db : List (String × Gemini.User)) (uid x : String) (r : Gemini.User),
      lookupKey db uid = some r →
        Gemini.update_user db uid ⟨none, none, some x⟩
          = (Except.ok { r with email := x }, setKey db uid { r with email := x }) ∧
        ∀ k, k ≠ uid → lookupKey (setKey db uid { r with email := x }) k = lookupKey db k) ∧
    (∀ (db : List (String × Windsurf.StoredUser)) (uid x : String)
       (r : Windsurf.StoredUser) (now : Nat),
      lookupKey db uid = some r →
      db.any (fun p => p.1 ≠ uid ∧ p.2.email = x) = false →
        Windsurf.update_user db uid ⟨none, some x, none, none⟩ now
          = (Except.ok (200, { r with email := x, updated_at := now }),
             setKey db uid { r with email := x, updated_at := now }) ∧
        ∀ k, k ≠ uid →
          lookupKey (setKey db uid { r with email := x, updated_at := now }) k
            = lookupKey db k) := by
  refine ⟨?_, ?_⟩
  · intro db uid x r hr
    refine ⟨?_, fun k hk => lookupKey_setKey_ne _ _ _ _ hk⟩
    simp [Gemini.update_user, hr]
  · intro db uid x r now hr hnoconf
    refine ⟨?_, fun k hk => lookupKey_setKey_ne _ _ _ _ hk⟩
    have htrans := any_setKey_of_key_false db uid r
      (fun p => decide (p.1 ≠ uid ∧ p.2.email = x)) (fun w => by simp)
    simp only [Windsurf.update_user, hr, Windsurf.applyName, Windsurf.applyActive]
    rw [if_neg (by rw [htrans, hnoconf]; simp)]

/-- Witness for C4 (amended) at a concrete one-record store per variant. -/
theorem claimC4_witness :
    (Gemini.update_user [("a", ⟨"a", "Jane", "Doe", "jane@example.com"⟩)] "a"
        ⟨none, none, some "new@example.com"⟩
      = (Except.ok ⟨"a", "Jane", "Doe", "new@example.com"⟩,
         [("a", ⟨"a", "Jane", "Doe", "new@example.com"⟩)])) ∧
    (Windsurf.update_user [("a", ⟨"a", "Alice", "alice@example.com", true, 0, 0⟩)] "a"
        ⟨none, some "new@example.com", none, none⟩ 1
      = (Except.ok (200, ⟨"a", "Alice", "new@example.com", true, 0, 1⟩),
         [("a", ⟨"a", "Alice", "new@example.com", true, 0, 1⟩)])) :=
  ⟨(claimC4_email_only_update_amended.1
      [("a", ⟨"a", "Jane", "Doe", "jane@example.com"⟩)] "a" "new@example.com"
      ⟨"a", "Jane", "Doe", "jane@example.com"⟩ (by decide)).1,
   (claimC4_email_only_update_amended.2
      [("a", ⟨"a", "Alice", "alice@example.com", true, 0, 0⟩)] "a" "new@example.com"
      ⟨"a", "Alice", "alice@example.com", true, 0, 0⟩ 1 (by decide) (by decide)).1⟩

/-- Counterexample to C1: in api_windsurf, updating record "a" with a new
name together with an email that collides with record "b" raises the
conflict error — but the store it leaves behind already carries the new name
on record "a", because the handler wrote `name` into the stored dict before
running the email-conflict check.  The call is not all-or-nothing. -/
theorem claimC1_counterexample :
    Windsurf.update_user
        [("a", ⟨"a", "Alice", "alice@example.com", true, 0, 0⟩),
         ("b", ⟨"b", "Bob", "bob@example.com", true, 0, 0⟩)] "a"
        ⟨some "Zed", some "bob@example.com", none, none⟩ 5
      = (Except.error ⟨400, "Email already registered"⟩,
         [("a", ⟨"a", "Zed", "alice@example.com", true, 0, 0⟩),
          ("b", ⟨"b", "Bob", "bob@example.com", true, 0, 0⟩)]) ∧
    (⟨"a", "Zed", "alice@example.com", true, 0, 0⟩ : Windsurf.StoredUser)
      ≠ ⟨"a", "Alice", "alice@example.com", true, 0, 0⟩ :=
  ⟨rfl, by decide⟩

/-- Claim C1 (amended): in api_windsurf, an update whose email collides with
a different stored record's email fails with the email-conflict error
(status 400) and writes neither the email nor the active flag nor a new
`updated_at` — the target's email and the colliding record are exactly as
before — but it is not all-or-nothing: a name supplied in the same partial
input has already been written to the target record when the error is
raised. -/
theorem claimC1_update_conflict_amended
    (db : List (String × Windsurf.StoredUser)) (uid : String)
    (uu : Windsurf.UserUpdate) (now : Nat) (r : Windsurf.StoredUser) (e : String)
    (hr : lookupKey db uid = some r) (he : uu.email = some e)
    (hconf : db.any (fun p => p.1 ≠ uid ∧ p.2.email = e) = true) :
    Windsurf.update_user db uid uu now
      = (Except.error ⟨400, "Email already registered"⟩,
         setKey db uid (Windsurf.applyName r uu.name)) ∧
    (Windsurf.applyName r uu.name).email = r.email ∧
    (Windsurf.applyName r uu.name).active = r.active ∧
    (Windsurf.applyName r uu.name).updated_at = r.updated_at ∧
    (Windsurf.applyName r uu.name).created_at = r.created_at ∧
    (Windsurf.applyName r uu.name).id = r.id ∧
    lookupKey (setKey db uid (Windsurf.applyName r uu.name)) uid
      = some (Windsurf.applyName r uu.name) ∧
    (∀ k, k ≠ uid →
      lookupKey (setKey db uid (Windsurf.applyName r uu.name)) k = lookupKey db k) := by
  have htrans := any_setKey_of_key_false db uid (Windsurf.applyName r uu.name)
    (fun p => decide (p.1 ≠ uid ∧ p.2.email = e)) (fun w => by simp)
  refine ⟨?_, ?_, ?_, ?_, ?_, ?_, lookupKey_setKey_self _ _ _,
    fun k hk => lookupKey_setKey_ne _ _ _ _ hk⟩
  · simp only [Windsurf.update_user, hr, he]
    rw [if_pos (by rw [htrans, hconf])]
  · cases hnm : uu.name <;> simp [Windsurf.applyName, hnm]
  · cases hnm : uu.name <;> simp [Windsurf.applyName, hnm]
  · cases hnm : uu.name <;> simp [Windsurf.applyName, hnm]
  · cases hnm : uu.name <;> simp [Windsurf.applyName, hnm]
  · cases hnm : uu.name <;> simp [Windsurf.applyName, hnm]

/-- Witness for C1 (amended) at the concrete two-record store of the
counterexample. -/
theorem claimC1_witness :
    Windsurf.update_user
        [("a", ⟨"a", "Alice", "alice@example.com", true, 0, 0⟩),
         ("b", ⟨"b", "Bob", "bob@example.com", true, 0, 0⟩)] "a"
        ⟨some "Zed", some "bob@example.com", none, none⟩ 5
      = (Except.error ⟨400, "Email already registered"⟩,
         setKey [("a", ⟨"a", "Alice", "alice@example.com", true, 0, 0⟩),
                 ("b", ⟨"b", "Bob", "bob@example.com", true, 0, 0⟩)] "a"
           (Windsurf.applyName ⟨"a", "Alice", "alice@example.com", true, 0, 0⟩
             (some "Zed"))) ∧
    (Windsurf.applyName (⟨"a", "Alice", "alice@example.com", true, 0, 0⟩ : Windsurf.StoredUser)
        (some "Zed")).email = "alice@example.com" :=
  have h := claimC1_update_conflict_amended
    [("a", ⟨"a", "Alice", "alice@example.com", true, 0, 0⟩),
     ("b", ⟨"b", "Bob", "bob@example.com", true, 0, 0⟩)] "a"
    ⟨some "Zed", some "bob@example.com", none, none⟩ 5
    ⟨"a", "Alice", "alice@example.com", true, 0, 0⟩ "bob@example.com"
    (by decide) rfl (by decide)
  ⟨h.1, h.2.1⟩
